import Mathlib

/-!
Verification of the credential-lifecycle core of the Crossbill Obsidian
plugin (`src/api.ts`, class `CrossbillAPI`).

The TypeScript class keeps mutable fields `bearerToken`, `refreshToken`,
`tokenExpiresAt`, `email`, `password` and an optional async callback
`onTokenUpdate`.  We embed that mutable record as `CredState`.  Network
effects (`fetch` of the refresh endpoint, the login endpoint, and the
protected target endpoint) and the external persistence callback are
modelled by oracle streams in `Net`: each dispatch consumes the head of
the corresponding stream, which tells the embedding how the external
world answered (success payload, non-2xx status, or a thrown error).
Every operation returns its result, the final state, and the list of
observable events (`Ev`) it produced, in order: network dispatches and
persistence-callback invocations.

Times (`Date.now()`, `tokenExpiresAt`) are epoch milliseconds, embedded
as `Int`; a single call runs at one instant `now`.  JavaScript
truthiness of the fields is preserved: an empty string is absent, and a
`tokenExpiresAt` of `null` or `0` fails the `if (!this.tokenExpiresAt)`
guard of `isTokenExpired`, so `some 0` counts as absent there.
-/

/-- Wire payload of a successful login/refresh exchange
(interface `LoginResponse` in `api.ts`). -/
structure LoginResponse where
  access_token : String
  refresh_token : String
  token_type : String
  expires_in : Int
  deriving DecidableEq, Repr

/-- The mutable credential fields of class `CrossbillAPI`, plus whether
the optional `onTokenUpdate` callback has been configured. -/
structure CredState where
  bearerToken : String
  refreshToken : String
  tokenExpiresAt : Option Int
  email : String
  password : String
  hasCallback : Bool
  deriving DecidableEq, Repr

/-- Outcome of one dispatch of `POST /api/v1/auth/refresh`:
the `fetch` promise rejects, the response is non-2xx (`!response.ok`),
the body fails to parse (`response.json()` throws), or a parsed payload
comes back. -/
inductive RefreshNet where
  | transportError
  | badStatus
  | parseError
  | success (data : LoginResponse)
  deriving DecidableEq, Repr

/-- Outcome of one dispatch of `POST /api/v1/auth/login`; a non-2xx
response carries the status and the `response.text()` body used in the
thrown error message. -/
inductive LoginNet where
  | transportError
  | badStatus (status : Int) (body : String)
  | parseError
  | success (data : LoginResponse)
  deriving DecidableEq, Repr

/-- An HTTP response from the protected target endpoint. -/
structure Response where
  status : Int
  body : String
  deriving DecidableEq, Repr

/-- Outcome of one dispatch of the protected target endpoint. -/
inductive TargetOutcome where
  | throws
  | resp (r : Response)
  deriving DecidableEq, Repr

/-- Oracle streams describing how the external world (server and
persistence callback) answers successive dispatches.  `callbackResults`
holds `true` when an `onTokenUpdate` invocation resolves and `false`
when it rejects. -/
structure Net where
  refreshResults : List RefreshNet
  loginResults : List LoginNet
  targetResults : List TargetOutcome
  callbackResults : List Bool
  deriving DecidableEq, Repr

/-- Full machine state threaded through the operations. -/
structure St where
  cred : CredState
  net : Net
  deriving DecidableEq, Repr

/-- Observable events, in program order: the three kinds of network
dispatch (the target dispatch records the attached bearer credential,
`none` when no Authorization header was built) and a persistence
callback invocation with its three arguments in order. -/
inductive Ev where
  | fetchRefresh
  | fetchLogin
  | fetchTarget (auth : Option String)
  | callback (accessToken : String) (refreshToken : String) (expiresAt : Int)
  deriving DecidableEq, Repr

/-- Errors the operations can throw to their caller. -/
inductive Err where
  | missingCredentials
  | loginFailed (status : Int) (body : String)
  | transportError
  | parseError
  | callbackError
  deriving DecidableEq, Repr

def popRefresh (n : Net) : RefreshNet × Net :=
  match n.refreshResults with
  | [] => (.transportError, n)
  | r :: rest => (r, { n with refreshResults := rest })

def popLogin (n : Net) : LoginNet × Net :=
  match n.loginResults with
  | [] => (.transportError, n)
  | r :: rest => (r, { n with loginResults := rest })

def popTarget (n : Net) : TargetOutcome × Net :=
  match n.targetResults with
  | [] => (.throws, n)
  | r :: rest => (r, { n with targetResults := rest })

def popCallback (n : Net) : Bool × Net :=
  match n.callbackResults with
  | [] => (true, n)
  | r :: rest => (r, { n with callbackResults := rest })

/-- `isTokenExpired` of `api.ts`: true when `tokenExpiresAt` is falsy
(`null` or `0`), else `Date.now() > tokenExpiresAt - 60000`. -/
def isTokenExpired (s : CredState) (now : Int) : Bool :=
  match s.tokenExpiresAt with
  | none => true
  | some t => if t = 0 then true else decide (now > t - 60000)

/-- The usability guard of `ensureAuthenticated`:
`this.bearerToken && !this.isTokenExpired()`. -/
def isUsable (s : CredState) (now : Int) : Bool :=
  if s.bearerToken = "" then false else !(isTokenExpired s now)

/-- `getAuthHeaders` of `api.ts`: the bearer credential attached to a
dispatch, `none` when `bearerToken` is falsy. -/
def authHeader (s : CredState) : Option String :=
  if s.bearerToken = "" then none else some s.bearerToken

/-- The two field clears of a failed refresh:
`this.refreshToken = ''; this.tokenExpiresAt = null`. -/
def clearRefreshState (c : CredState) : CredState :=
  { c with refreshToken := "", tokenExpiresAt := none }

/-- `refreshAccessToken` of `api.ts`.  Returns `false` without any
dispatch when no refresh token is present; otherwise dispatches the
refresh exchange.  A non-2xx response, or any throw inside the `try`
(transport error, parse error, or a rejecting `onTokenUpdate`), clears
the refresh state and returns `false`.  On success the three token
fields are overwritten, the callback (when configured) is awaited, and
`true` is returned. -/
def refreshAccessToken (now : Int) (s : St) : Bool × St × List Ev :=
  if s.cred.refreshToken = "" then (false, s, [])
  else
    let (r, net1) := popRefresh s.net
    match r with
    | .transportError => (false, ⟨clearRefreshState s.cred, net1⟩, [.fetchRefresh])
    | .badStatus => (false, ⟨clearRefreshState s.cred, net1⟩, [.fetchRefresh])
    | .parseError => (false, ⟨clearRefreshState s.cred, net1⟩, [.fetchRefresh])
    | .success data =>
      let newExp : Int := now + data.expires_in * 1000
      let cred1 : CredState :=
        { s.cred with bearerToken := data.access_token,
                      refreshToken := data.refresh_token,
                      tokenExpiresAt := some newExp }
      if cred1.hasCallback then
        let (cbOk, net2) := popCallback net1
        let evs := [Ev.fetchRefresh, Ev.callback data.access_token data.refresh_token newExp]
        if cbOk then (true, ⟨cred1, net2⟩, evs)
        else (false, ⟨clearRefreshState cred1, net2⟩, evs)
      else (true, ⟨cred1, net1⟩, [.fetchRefresh])

/-- `login` of `api.ts`.  Dispatches the password-grant exchange; a
thrown transport or parse error propagates, a non-2xx response throws
`Login failed (status): body`, and on success the token fields are
overwritten and the callback (when configured) is awaited before the
payload is returned. -/
def login (now : Int) (email password : String) (s : St) :
    Except Err LoginResponse × St × List Ev :=
  let (r, net1) := popLogin s.net
  match r with
  | .transportError => (.error .transportError, ⟨s.cred, net1⟩, [.fetchLogin])
  | .badStatus status body => (.error (.loginFailed status body), ⟨s.cred, net1⟩, [.fetchLogin])
  | .parseError => (.error .parseError, ⟨s.cred, net1⟩, [.fetchLogin])
  | .success data =>
    let newExp : Int := now + data.expires_in * 1000
    let cred1 : CredState :=
      { s.cred with bearerToken := data.access_token,
                    refreshToken := data.refresh_token,
                    tokenExpiresAt := some newExp }
    if cred1.hasCallback then
      let (cbOk, net2) := popCallback net1
      let evs := [Ev.fetchLogin, Ev.callback data.access_token data.refresh_token newExp]
      if cbOk then (.ok data, ⟨cred1, net2⟩, evs)
      else (.error .callbackError, ⟨cred1, net2⟩, evs)
    else (.ok data, ⟨cred1, net1⟩, [.fetchLogin])

/-- `ensureAuthenticated` of `api.ts`: return at once when the current
token is usable; else try `refreshAccessToken` when a refresh token is
present; else require email and password and fall back to `login`.
The source guard `this.refreshToken && await this.refreshAccessToken()`
is embedded as a direct call: `refreshAccessToken` already returns
`false` with no effect when the refresh token is empty, so the
short-circuit changes nothing observable. -/
def ensureAuthenticated (now : Int) (s : St) : Except Err Unit × St × List Ev :=
  if isUsable s.cred now then (.ok (), s, [])
  else
    match refreshAccessToken now s with
    | (true, s1, tr1) => (.ok (), s1, tr1)
    | (false, s1, tr1) =>
      if s1.cred.email = "" ∨ s1.cred.password = "" then
        (.error .missingCredentials, s1, tr1)
      else
        match login now s1.cred.email s1.cred.password s1 with
        | (.ok _, s2, tr2) => (.ok (), s2, tr1 ++ tr2)
        | (.error e, s2, tr2) => (.error e, s2, tr1 ++ tr2)

/-- One dispatch of the protected target endpoint with the current
Authorization header attached. -/
def dispatchTarget (s : St) : TargetOutcome × St × List Ev :=
  let (t, net1) := popTarget s.net
  (t, ⟨s.cred, net1⟩, [.fetchTarget (authHeader s.cred)])

/-- `authenticatedFetch` of `api.ts`: ensure authentication, dispatch
the target once, and on a 401 clear the bearer token, recover by
refresh (when a refresh token is present) or by a second
`ensureAuthenticated`, and re-dispatch exactly once, returning that
second response whatever its status. -/
def authenticatedFetch (now : Int) (s : St) : Except Err Response × St × List Ev :=
  match ensureAuthenticated now s with
  | (.error e, s1, tr1) => (.error e, s1, tr1)
  | (.ok _, s1, tr1) =>
    let (t, s2, tr2) := dispatchTarget s1
    match t with
    | .throws => (.error .transportError, s2, tr1 ++ tr2)
    | .resp r =>
      if r.status = 401 then
        let s3 : St := ⟨{ s2.cred with bearerToken := "" }, s2.net⟩
        match refreshAccessToken now s3 with
        | (true, s4, tr3) =>
          let (t2, s5, tr4) := dispatchTarget s4
          match t2 with
          | .throws => (.error .transportError, s5, tr1 ++ tr2 ++ tr3 ++ tr4)
          | .resp r2 => (.ok r2, s5, tr1 ++ tr2 ++ tr3 ++ tr4)
        | (false, s4, tr3) =>
          match ensureAuthenticated now s4 with
          | (.error e, s5, tr4) => (.error e, s5, tr1 ++ tr2 ++ tr3 ++ tr4)
          | (.ok _, s5, tr4) =>
            let (t2, s6, tr5) := dispatchTarget s5
            match t2 with
            | .throws => (.error .transportError, s6, tr1 ++ tr2 ++ tr3 ++ tr4 ++ tr5)
            | .resp r2 => (.ok r2, s6, tr1 ++ tr2 ++ tr3 ++ tr4 ++ tr5)
      else (.ok r, s2, tr1 ++ tr2)

/-- Number of target-endpoint dispatches in an event list. -/
def countTarget (evs : List Ev) : Nat :=
  evs.countP (fun ev => match ev with | .fetchTarget _ => true | _ => false)

/-- A payload is well-formed when the server returned a non-empty
access token and at least 60 seconds of validity. -/
def goodData (d : LoginResponse) : Bool :=
  d.access_token ≠ "" && 60 ≤ d.expires_in

def RefreshNet.goodB : RefreshNet → Bool
  | .success d => goodData d
  | _ => true

def LoginNet.goodB : LoginNet → Bool
  | .success d => goodData d
  | _ => true

/-- Every successful exchange the oracle can hand out is well-formed. -/
def Net.goodB (n : Net) : Bool :=
  n.refreshResults.all RefreshNet.goodB && n.loginResults.all LoginNet.goodB

/-- A refresh exchange outcome that is a failure (non-2xx response or a
thrown transport/parse error) rather than a parsed success payload. -/
def RefreshNet.isFailure : RefreshNet → Bool
  | .success _ => false
  | _ => true

/-- Claim C1 as stated: every non-throwing `ensureAuthenticated` leaves
a non-empty access token with an `expiresAt` strictly more than 60
seconds after the current time. -/
def c1Stated : Prop :=
  ∀ (now : Int) (s s' : St) (tr : List Ev), 0 ≤ now →
    ensureAuthenticated now s = (.ok (), s', tr) →
    s'.cred.bearerToken ≠ "" ∧
    ∃ t, s'.cred.tokenExpiresAt = some t ∧ now < t - 60000

/-- Claim C3 as stated: with a non-empty token and `expiresAt` present,
the usability check is true strictly more than 60 seconds before
`expiresAt` and false within 60 seconds of it (boundary included) or
past it. -/
def c3Stated : Prop :=
  ∀ (s : CredState) (now t : Int), s.bearerToken ≠ "" →
    s.tokenExpiresAt = some t →
    (now < t - 60000 → isUsable s now = true) ∧
    (t - 60000 ≤ now → isUsable s now = false)

/-- Claim C5 as stated: a thrown transport error during login or
refresh is never propagated raw to the caller of the coordinator. -/
def c5Stated : Prop :=
  ∀ (now : Int) (s : St), (ensureAuthenticated now s).1 ≠ Except.error Err.transportError

/-- Claim C10 as stated: every execution of `refreshAccessToken` that
returns `false` leaves the access token field unchanged. -/
def c10Stated : Prop :=
  ∀ (now : Int) (s s' : St) (tr : List Ev),
    refreshAccessToken now s = (false, s', tr) →
    s'.cred.bearerToken = s.cred.bearerToken

/-! ### Supporting lemmas -/

theorem isUsable_spec (s : CredState) (now : Int) (h : isUsable s now = true) :
    s.bearerToken ≠ "" ∧ ∃ t, s.tokenExpiresAt = some t ∧ t ≠ 0 ∧ now ≤ t - 60000 := by
  unfold isUsable isTokenExpired at h
  split at h
  · simp at h
  · rename_i hb
    refine ⟨hb, ?_⟩
    cases hexp : s.tokenExpiresAt with
    | none => rw [hexp] at h; simp at h
    | some t =>
      rw [hexp] at h
      refine ⟨t, rfl, ?_, ?_⟩ <;> by_cases ht : t = 0 <;> simp [ht] at h ⊢ <;> omega

theorem refresh_true (now : Int) (s s' : St) (tr : List Ev)
    (h : refreshAccessToken now s = (true, s', tr)) :
    ∃ data rest, s.net.refreshResults = RefreshNet.success data :: rest ∧
      s'.cred.bearerToken = data.access_token ∧
      s'.cred.refreshToken = data.refresh_token ∧
      s'.cred.tokenExpiresAt = some (now + data.expires_in * 1000) ∧
      s'.cred.email = s.cred.email ∧ s'.cred.password = s.cred.password ∧
      s'.net.loginResults = s.net.loginResults ∧
      (s.cred.hasCallback = true →
        tr = [Ev.fetchRefresh,
              Ev.callback data.access_token data.refresh_token (now + data.expires_in * 1000)]) := by
  by_cases hrt : s.cred.refreshToken = ""
  · simp [refreshAccessToken, hrt] at h
  · cases hl : s.net.refreshResults with
    | nil => simp [refreshAccessToken, popRefresh, hrt, hl] at h
    | cons r rest =>
      cases r with
      | transportError => simp [refreshAccessToken, popRefresh, hrt, hl] at h
      | badStatus => simp [refreshAccessToken, popRefresh, hrt, hl] at h
      | parseError => simp [refreshAccessToken, popRefresh, hrt, hl] at h
      | success data =>
        by_cases hcb : s.cred.hasCallback = true
        · cases hc : s.net.callbackResults with
          | nil =>
            simp [refreshAccessToken, popRefresh, popCallback, hrt, hl, hcb, hc] at h
            obtain ⟨hs, htr⟩ := h
            subst htr
            exact ⟨data, rest, rfl, by rw [← hs], by rw [← hs], by rw [← hs],
              by rw [← hs], by rw [← hs], by rw [← hs], fun _ => rfl⟩
          | cons b bs =>
            cases b with
            | true =>
              simp [refreshAccessToken, popRefresh, popCallback, hrt, hl, hcb, hc] at h
              obtain ⟨hs, htr⟩ := h
              subst htr
              exact ⟨data, rest, rfl, by rw [← hs], by rw [← hs], by rw [← hs],
                by rw [← hs], by rw [← hs], by rw [← hs], fun _ => rfl⟩
            | false =>
              simp [refreshAccessToken, popRefresh, popCallback, hrt, hl, hcb, hc] at h
        · simp [refreshAccessToken, popRefresh, hrt, hl, hcb] at h
          obtain ⟨hs, htr⟩ := h
          subst htr
          refine ⟨data, rest, rfl, by rw [← hs], by rw [← hs], by rw [← hs],
            by rw [← hs], by rw [← hs], by rw [← hs], fun hc2 => absurd hc2 hcb⟩

theorem login_ok (now : Int) (e p : String) (s : St) (data : LoginResponse) (s' : St)
    (tr : List Ev) (h : login now e p s = (.ok data, s', tr)) :
    ∃ rest, s.net.loginResults = LoginNet.success data :: rest ∧
      s'.cred.bearerToken = data.access_token ∧
      s'.cred.refreshToken = data.refresh_token ∧
      s'.cred.tokenExpiresAt = some (now + data.expires_in * 1000) ∧
      s'.cred.email = s.cred.email ∧ s'.cred.password = s.cred.password ∧
      (s.cred.hasCallback = true →
        tr = [Ev.fetchLogin,
              Ev.callback data.access_token data.refresh_token (now + data.expires_in * 1000)]) := by
  cases hl : s.net.loginResults with
  | nil => simp [login, popLogin, hl] at h
  | cons r rest =>
    cases r with
    | transportError => simp [login, popLogin, hl] at h
    | badStatus st body => simp [login, popLogin, hl] at h
    | parseError => simp [login, popLogin, hl] at h
    | success d =>
      by_cases hcb : s.cred.hasCallback = true
      · cases hc : s.net.callbackResults with
        | nil =>
          simp [login, popLogin, popCallback, hl, hcb, hc] at h
          obtain ⟨hd, hs, htr⟩ := h
          subst hd htr
          exact ⟨rest, rfl, by rw [← hs], by rw [← hs], by rw [← hs],
            by rw [← hs], by rw [← hs], fun _ => rfl⟩
        | cons b bs =>
          cases b with
          | true =>
            simp [login, popLogin, popCallback, hl, hcb, hc] at h
            obtain ⟨hd, hs, htr⟩ := h
            subst hd htr
            exact ⟨rest, rfl, by rw [← hs], by rw [← hs], by rw [← hs],
              by rw [← hs], by rw [← hs], fun _ => rfl⟩
          | false => simp [login, popLogin, popCallback, hl, hcb, hc] at h
      · simp [login, popLogin, hl, hcb] at h
        obtain ⟨hd, hs, htr⟩ := h
        subst hd htr
        exact ⟨rest, rfl, by rw [← hs], by rw [← hs], by rw [← hs],
          by rw [← hs], by rw [← hs], fun hc2 => absurd hc2 hcb⟩

theorem login_trace (now : Int) (e p : String) (s : St) :
    ∃ evs, (login now e p s).2.2 = Ev.fetchLogin :: evs := by
  cases hl : s.net.loginResults with
  | nil => exact ⟨[], by simp [login, popLogin, hl]⟩
  | cons r rest =>
    cases r with
    | transportError => exact ⟨[], by simp [login, popLogin, hl]⟩
    | badStatus st body => exact ⟨[], by simp [login, popLogin, hl]⟩
    | parseError => exact ⟨[], by simp [login, popLogin, hl]⟩
    | success d =>
      by_cases hcb : s.cred.hasCallback = true
      · refine ⟨[Ev.callback d.access_token d.refresh_token (now + d.expires_in * 1000)], ?_⟩
        simp only [login, popLogin, hl, hcb]
        simp
        split <;> rfl
      · exact ⟨[], by simp [login, popLogin, hl, hcb]⟩

theorem refresh_frame (now : Int) (s : St) :
    (refreshAccessToken now s).2.1.cred.email = s.cred.email ∧
    (refreshAccessToken now s).2.1.cred.password = s.cred.password ∧
    (refreshAccessToken now s).2.1.cred.hasCallback = s.cred.hasCallback ∧
    (refreshAccessToken now s).2.1.net.targetResults = s.net.targetResults ∧
    (refreshAccessToken now s).2.1.net.loginResults = s.net.loginResults := by
  by_cases hrt : s.cred.refreshToken = ""
  · simp [refreshAccessToken, hrt]
  · cases hl : s.net.refreshResults with
    | nil => simp [refreshAccessToken, popRefresh, hrt, hl, clearRefreshState]
    | cons r rest =>
      cases r with
      | transportError => simp [refreshAccessToken, popRefresh, hrt, hl, clearRefreshState]
      | badStatus => simp [refreshAccessToken, popRefresh, hrt, hl, clearRefreshState]
      | parseError => simp [refreshAccessToken, popRefresh, hrt, hl, clearRefreshState]
      | success data =>
        by_cases hcb : s.cred.hasCallback = true
        · cases hc : s.net.callbackResults with
          | nil => simp [refreshAccessToken, popRefresh, popCallback, hrt, hl, hcb, hc,
              clearRefreshState]
          | cons b bs =>
            cases b <;>
              simp [refreshAccessToken, popRefresh, popCallback, hrt, hl, hcb, hc,
                clearRefreshState]
        · simp [refreshAccessToken, popRefresh, hrt, hl, hcb]

theorem login_frame (now : Int) (e p : String) (s : St) :
    (login now e p s).2.1.cred.email = s.cred.email ∧
    (login now e p s).2.1.cred.password = s.cred.password ∧
    (login now e p s).2.1.cred.hasCallback = s.cred.hasCallback ∧
    (login now e p s).2.1.net.targetResults = s.net.targetResults := by
  cases hl : s.net.loginResults with
  | nil => simp [login, popLogin, hl]
  | cons r rest =>
    cases r with
    | transportError => simp [login, popLogin, hl]
    | badStatus st body => simp [login, popLogin, hl]
    | parseError => simp [login, popLogin, hl]
    | success d =>
      by_cases hcb : s.cred.hasCallback = true
      · cases hc : s.net.callbackResults with
        | nil => simp [login, popLogin, popCallback, hl, hcb, hc]
        | cons b bs =>
          cases b <;> simp [login, popLogin, popCallback, hl, hcb, hc]
      · simp [login, popLogin, hl, hcb]

theorem countTarget_append (a b : List Ev) :
    countTarget (a ++ b) = countTarget a + countTarget b := by
  simp [countTarget]

theorem refresh_countTarget (now : Int) (s : St) :
    countTarget (refreshAccessToken now s).2.2 = 0 := by
  by_cases hrt : s.cred.refreshToken = ""
  · simp [refreshAccessToken, hrt, countTarget]
  · cases hl : s.net.refreshResults with
    | nil => simp [refreshAccessToken, popRefresh, hrt, hl, countTarget]
    | cons r rest =>
      cases r with
      | transportError => simp [refreshAccessToken, popRefresh, hrt, hl, countTarget]
      | badStatus => simp [refreshAccessToken, popRefresh, hrt, hl, countTarget]
      | parseError => simp [refreshAccessToken, popRefresh, hrt, hl, countTarget]
      | success data =>
        by_cases hcb : s.cred.hasCallback = true
        · cases hc : s.net.callbackResults with
          | nil => simp [refreshAccessToken, popRefresh, popCallback, hrt, hl, hcb, hc,
              countTarget]
          | cons b bs =>
            cases b <;>
              simp [refreshAccessToken, popRefresh, popCallback, hrt, hl, hcb, hc, countTarget]
        · simp [refreshAccessToken, popRefresh, hrt, hl, hcb, countTarget]

theorem login_countTarget (now : Int) (e p : String) (s : St) :
    countTarget (login now e p s).2.2 = 0 := by
  obtain ⟨evs, hevs⟩ := login_trace now e p s
  cases hl : s.net.loginResults with
  | nil => simp [login, popLogin, hl, countTarget]
  | cons r rest =>
    cases r with
    | transportError => simp [login, popLogin, hl, countTarget]
    | badStatus st body => simp [login, popLogin, hl, countTarget]
    | parseError => simp [login, popLogin, hl, countTarget]
    | success d =>
      by_cases hcb : s.cred.hasCallback = true
      · cases hc : s.net.callbackResults with
        | nil => simp [login, popLogin, popCallback, hl, hcb, hc, countTarget]
        | cons b bs =>
          cases b <;> simp [login, popLogin, popCallback, hl, hcb, hc, countTarget]
      · simp [login, popLogin, hl, hcb, countTarget]

theorem ensure_countTarget (now : Int) (s : St) :
    countTarget (ensureAuthenticated now s).2.2 = 0 := by
  by_cases hu : isUsable s.cred now = true
  · simp [ensureAuthenticated, hu, countTarget]
  · rcases href : refreshAccessToken now s with ⟨b, s1, tr1⟩
    have htr1 : countTarget tr1 = 0 := by
      have := refresh_countTarget now s
      rw [href] at this
      exact this
    cases b with
    | true => simpa [ensureAuthenticated, hu, href] using htr1
    | false =>
      by_cases hep : s1.cred.email = "" ∨ s1.cred.password = ""
      · simpa [ensureAuthenticated, hu, href, hep] using htr1
      · rcases hlog : login now s1.cred.email s1.cred.password s1 with ⟨res, s2, tr2⟩
        have htr2 : countTarget tr2 = 0 := by
          have := login_countTarget now s1.cred.email s1.cred.password s1
          rw [hlog] at this
          exact this
        cases res with
        | ok d =>
          simp [ensureAuthenticated, hu, href, hep, hlog, countTarget_append, htr1, htr2]
        | error e =>
          simp [ensureAuthenticated, hu, href, hep, hlog, countTarget_append, htr1, htr2]

theorem ensure_frame (now : Int) (s : St) :
    (ensureAuthenticated now s).2.1.cred.email = s.cred.email ∧
    (ensureAuthenticated now s).2.1.cred.password = s.cred.password ∧
    (ensureAuthenticated now s).2.1.cred.hasCallback = s.cred.hasCallback ∧
    (ensureAuthenticated now s).2.1.net.targetResults = s.net.targetResults := by
  by_cases hu : isUsable s.cred now = true
  · simp [ensureAuthenticated, hu]
  · rcases href : refreshAccessToken now s with ⟨b, s1, tr1⟩
    have hf1 := refresh_frame now s
    rw [href] at hf1
    cases b with
    | true => simp only [ensureAuthenticated, hu, href]; exact ⟨hf1.1, hf1.2.1, hf1.2.2.1, hf1.2.2.2.1⟩
    | false =>
      by_cases hep : s1.cred.email = "" ∨ s1.cred.password = ""
      · simp only [ensureAuthenticated, hu, href, hep, if_true, ite_true]
        exact ⟨hf1.1, hf1.2.1, hf1.2.2.1, hf1.2.2.2.1⟩
      · rcases hlog : login now s1.cred.email s1.cred.password s1 with ⟨res, s2, tr2⟩
        have hf2 := login_frame now s1.cred.email s1.cred.password s1
        rw [hlog] at hf2
        cases res with
        | ok d =>
          simp only [ensureAuthenticated, hu, href, hep, hlog, if_false, ite_false]
          exact ⟨hf2.1.trans hf1.1, (hf2.2.1).trans hf1.2.1,
            (hf2.2.2.1).trans hf1.2.2.1, (hf2.2.2.2).trans hf1.2.2.2.1⟩
        | error e =>
          simp only [ensureAuthenticated, hu, href, hep, hlog, if_false, ite_false]
          exact ⟨hf2.1.trans hf1.1, (hf2.2.1).trans hf1.2.1,
            (hf2.2.2.1).trans hf1.2.2.1, (hf2.2.2.2).trans hf1.2.2.2.1⟩

theorem goodData_spec (d : LoginResponse) (h : goodData d = true) :
    d.access_token ≠ "" ∧ 60 ≤ d.expires_in := by
  simp [goodData] at h
  exact h

theorem goodB_refresh_head (n : Net) (d : LoginResponse) (rest : List RefreshNet)
    (hg : Net.goodB n = true) (hh : n.refreshResults = RefreshNet.success d :: rest) :
    goodData d = true := by
  simp [Net.goodB] at hg
  have := hg.1
  rw [hh] at this
  simp [List.all_cons, RefreshNet.goodB] at this
  exact this.1

theorem goodB_login_head (n : Net) (d : LoginResponse) (rest : List LoginNet)
    (hg : Net.goodB n = true) (hh : n.loginResults = LoginNet.success d :: rest) :
    goodData d = true := by
  simp [Net.goodB] at hg
  have := hg.2
  rw [hh] at this
  simp [List.all_cons, LoginNet.goodB] at this
  exact this.1

/-! ### Claims -/

/-- C3 counterexample.  The claim says the check is false whenever the
current time is within 60 seconds of `expiresAt` (matching the spec
invariant `now < expiresAt - skew`), but at `now = expiresAt - 60000`
exactly — 60 seconds before expiry — `isTokenExpired` uses a strict
`>`, so the usability check is still true. -/
theorem c3_counterexample : ¬ c3Stated := by
  intro h
  have h2 := (h ⟨"tok", "", some 1000000, "", "", false⟩ 940000 1000000
    (by decide) rfl).2 (by decide)
  exact absurd h2 (by decide)

/-- C3 (amended): for a credential state with a non-empty access token
and a nonnegative clock, when `expiresAt` is present the usability
check is true exactly when the current time is at least 60 seconds
before it (`now ≤ expiresAt - 60000`, boundary included), and when
`expiresAt` is absent the check is false. -/
theorem c3_usability_check (s : CredState) (now t : Int) (h0 : 0 ≤ now)
    (hb : s.bearerToken ≠ "") :
    (s.tokenExpiresAt = some t → (isUsable s now = true ↔ now ≤ t - 60000)) ∧
    (s.tokenExpiresAt = none → isUsable s now = false) := by
  constructor
  · intro ht
    unfold isUsable isTokenExpired
    rw [ht]
    by_cases h00 : t = 0
    · subst h00
      simp [hb]
      omega
    · simp [hb, h00]
  · intro ht
    unfold isUsable isTokenExpired
    rw [ht]
    simp [hb]

/-- C3 witness: a token expiring 1000000 ms after epoch is usable at
time 0. -/
theorem c3_usability_check_witness :
    isUsable ⟨"tok", "", some 1000000, "", "", false⟩ 0 = true :=
  ((c3_usability_check ⟨"tok", "", some 1000000, "", "", false⟩ 0 1000000
    (by decide) (by decide)).1 rfl).mpr (by decide)

/-- C4: whenever `refreshAccessToken` attempts the network exchange (a
refresh token is present, so the head of the refresh oracle is
consumed) and the exchange fails — non-2xx response, or thrown
transport/parse error — the function returns `false` and both
`refreshToken` and `tokenExpiresAt` are cleared afterward. -/
theorem c4_failed_refresh_clears (now : Int) (s : St) (r : RefreshNet)
    (rest : List RefreshNet) (hrt : s.cred.refreshToken ≠ "")
    (hr : s.net.refreshResults = r :: rest) (hfail : r.isFailure = true) :
    (refreshAccessToken now s).1 = false ∧
    (refreshAccessToken now s).2.1.cred.refreshToken = "" ∧
    (refreshAccessToken now s).2.1.cred.tokenExpiresAt = none := by
  cases r with
  | transportError => simp [refreshAccessToken, popRefresh, hrt, hr, clearRefreshState]
  | badStatus => simp [refreshAccessToken, popRefresh, hrt, hr, clearRefreshState]
  | parseError => simp [refreshAccessToken, popRefresh, hrt, hr, clearRefreshState]
  | success d => simp [RefreshNet.isFailure] at hfail

/-- C4 witness: a refresh attempt answered by a non-2xx response clears
the refresh state and reports failure. -/
theorem c4_failed_refresh_clears_witness :
    (refreshAccessToken 0 ⟨⟨"tok", "rt", some 99, "e", "p", false⟩,
      ⟨[RefreshNet.badStatus], [], [], []⟩⟩).1 = false ∧
    (refreshAccessToken 0 ⟨⟨"tok", "rt", some 99, "e", "p", false⟩,
      ⟨[RefreshNet.badStatus], [], [], []⟩⟩).2.1.cred.refreshToken = "" ∧
    (refreshAccessToken 0 ⟨⟨"tok", "rt", some 99, "e", "p", false⟩,
      ⟨[RefreshNet.badStatus], [], [], []⟩⟩).2.1.cred.tokenExpiresAt = none :=
  c4_failed_refresh_clears 0 ⟨⟨"tok", "rt", some 99, "e", "p", false⟩,
    ⟨[RefreshNet.badStatus], [], [], []⟩⟩ RefreshNet.badStatus [] (by decide) rfl rfl

/-- C6: with an unusable access token, no refresh token and a missing
email or password, `ensureAuthenticated` throws the missing-credentials
error, leaves the state untouched and produces no event at all — in
particular zero network dispatches. -/
theorem c6_missing_credentials (now : Int) (s : St)
    (hu : isUsable s.cred now = false) (hrt : s.cred.refreshToken = "")
    (hep : s.cred.email = "" ∨ s.cred.password = "") :
    ensureAuthenticated now s = (.error .missingCredentials, s, []) := by
  simp [ensureAuthenticated, refreshAccessToken, hu, hrt, hep]

/-- C6 witness: expired empty state with a password but no email fails
with `missingCredentials` and no events. -/
theorem c6_missing_credentials_witness :
    ensureAuthenticated 0 ⟨⟨"", "", none, "", "p", false⟩, ⟨[], [], [], []⟩⟩ =
      (.error .missingCredentials, ⟨⟨"", "", none, "", "p", false⟩, ⟨[], [], [], []⟩⟩, []) :=
  c6_missing_credentials 0 ⟨⟨"", "", none, "", "p", false⟩, ⟨[], [], [], []⟩⟩
    (by decide) rfl (Or.inl rfl)

/-- C9: a `login` call answered by a non-2xx response throws the
login-failed error carrying that status and body, leaves every
credential field at its prior value, and invokes no persistence
callback (the only event is the login dispatch itself). -/
theorem c9_login_rejected (now : Int) (e p : String) (s : St) (status : Int)
    (body : String) (rest : List LoginNet)
    (h : s.net.loginResults = LoginNet.badStatus status body :: rest) :
    login now e p s = (.error (.loginFailed status body),
      ⟨s.cred, { s.net with loginResults := rest }⟩, [Ev.fetchLogin]) := by
  simp [login, popLogin, h]

/-- C9 witness: a 403 login rejection propagates with untouched state
and a single login-dispatch event. -/
theorem c9_login_rejected_witness :
    login 0 "e" "p" ⟨⟨"tok", "rt", some 5, "e", "p", true⟩,
        ⟨[], [LoginNet.badStatus 403 "denied"], [], [true]⟩⟩ =
      (.error (.loginFailed 403 "denied"),
       ⟨⟨"tok", "rt", some 5, "e", "p", true⟩, ⟨[], [], [], [true]⟩⟩, [Ev.fetchLogin]) :=
  c9_login_rejected 0 "e" "p" ⟨⟨"tok", "rt", some 5, "e", "p", true⟩,
    ⟨[], [LoginNet.badStatus 403 "denied"], [], [true]⟩⟩ 403 "denied" [] rfl

/-- C10 counterexample.  Not every failed execution of
`refreshAccessToken` leaves the access token unchanged: when the
exchange succeeds but the awaited `onTokenUpdate` callback rejects, the
throw lands in the same `catch` block, so the call returns `false`
after the new access token has already been written over the old
one. -/
theorem c10_counterexample : ¬ c10Stated := by
  intro h
  have h2 := h 0
    ⟨⟨"old", "rt", some 5, "e", "p", true⟩,
     ⟨[RefreshNet.success ⟨"new", "r2", "bearer", 3600⟩], [], [], [false]⟩⟩
    ⟨⟨"new", "", none, "e", "p", true⟩, ⟨[], [], [], []⟩⟩
    [Ev.fetchRefresh, Ev.callback "new" "r2" 3600000] rfl
  exact absurd h2 (by decide)

/-- C10 (amended): whenever the network exchange itself fails (non-2xx
response or thrown transport/parse error, i.e. any failure occurring
before the new credentials are applied), `refreshAccessToken` returns
`false` and the access token field keeps its prior value; only a
persistence-callback rejection after a successful exchange can make a
`false`-returning run keep the freshly applied token instead. -/
theorem c10_exchange_failure_keeps_token (now : Int) (s : St) (r : RefreshNet)
    (rest : List RefreshNet) (hrt : s.cred.refreshToken ≠ "")
    (hr : s.net.refreshResults = r :: rest) (hfail : r.isFailure = true) :
    (refreshAccessToken now s).1 = false ∧
    (refreshAccessToken now s).2.1.cred.bearerToken = s.cred.bearerToken := by
  cases r with
  | transportError => simp [refreshAccessToken, popRefresh, hrt, hr, clearRefreshState]
  | badStatus => simp [refreshAccessToken, popRefresh, hrt, hr, clearRefreshState]
  | parseError => simp [refreshAccessToken, popRefresh, hrt, hr, clearRefreshState]
  | success d => simp [RefreshNet.isFailure] at hfail

/-- C10 witness: a transport error during the refresh exchange reports
failure and keeps the stored access token. -/
theorem c10_exchange_failure_keeps_token_witness :
    (refreshAccessToken 0 ⟨⟨"tok", "rt", some 99, "e", "p", false⟩,
      ⟨[RefreshNet.transportError], [], [], []⟩⟩).1 = false ∧
    (refreshAccessToken 0 ⟨⟨"tok", "rt", some 99, "e", "p", false⟩,
      ⟨[RefreshNet.transportError], [], [], []⟩⟩).2.1.cred.bearerToken =
      (⟨⟨"tok", "rt", some 99, "e", "p", false⟩,
        ⟨[RefreshNet.transportError], [], [], []⟩⟩ : St).cred.bearerToken :=
  c10_exchange_failure_keeps_token 0 ⟨⟨"tok", "rt", some 99, "e", "p", false⟩,
    ⟨[RefreshNet.transportError], [], [], []⟩⟩ RefreshNet.transportError []
    (by decide) rfl rfl

/-- C5 counterexample.  A thrown transport error during `login` is not
degraded to any recovery path: it propagates raw out of
`ensureAuthenticated` (the `fetch` in `login` is not inside any
`try`). -/
theorem c5_counterexample : ¬ c5Stated := by
  intro h
  exact h 999999999
    ⟨⟨"tok", "", some 1000000, "e", "p", false⟩, ⟨[], [LoginNet.transportError], [], []⟩⟩
    rfl

/-- C5 (amended): a thrown transport error during the refresh exchange
is treated as a refresh failure — the refresh state is cleared and
`refreshAccessToken` returns `false` — and `ensureAuthenticated` then
degrades to the re-login path (the refresh dispatch is immediately
followed by a login dispatch); a thrown transport error during login
itself propagates to the caller. -/
theorem c5_refresh_transport_degrades (now : Int) (s : St) (rest : List RefreshNet)
    (hu : isUsable s.cred now = false) (hrt : s.cred.refreshToken ≠ "")
    (hr : s.net.refreshResults = RefreshNet.transportError :: rest)
    (he : s.cred.email ≠ "") (hp : s.cred.password ≠ "") :
    refreshAccessToken now s =
      (false, ⟨clearRefreshState s.cred, { s.net with refreshResults := rest }⟩,
        [Ev.fetchRefresh]) ∧
    ∃ evs, (ensureAuthenticated now s).2.2 = Ev.fetchRefresh :: Ev.fetchLogin :: evs := by
  have hrefl : refreshAccessToken now s =
      (false, ⟨clearRefreshState s.cred, { s.net with refreshResults := rest }⟩,
        [Ev.fetchRefresh]) := by
    simp [refreshAccessToken, popRefresh, hrt, hr]
  refine ⟨hrefl, ?_⟩
  rcases hlog : login now s.cred.email s.cred.password
      ⟨clearRefreshState s.cred, { s.net with refreshResults := rest }⟩ with ⟨res, s2, tr2⟩
  obtain ⟨evs, hevs⟩ := login_trace now s.cred.email s.cred.password
      ⟨clearRefreshState s.cred, { s.net with refreshResults := rest }⟩
  rw [hlog] at hevs
  refine ⟨evs, ?_⟩
  have hem : (clearRefreshState s.cred).email = s.cred.email := rfl
  have hpw : (clearRefreshState s.cred).password = s.cred.password := rfl
  cases res with
  | ok d =>
    simp only [ensureAuthenticated, hu, hrefl, hem, hpw, he, hp, hlog]
    simpa using hevs
  | error e =>
    simp only [ensureAuthenticated, hu, hrefl, hem, hpw, he, hp, hlog]
    simpa using hevs

/-- C5 witness: with an expired token, a refresh token, credentials
configured and a transport error answering the refresh, the refresh is
treated as failed and the coordinator proceeds to dispatch a login. -/
theorem c5_refresh_transport_degrades_witness :
    refreshAccessToken 1000000 ⟨⟨"tok", "rt", some 5, "e", "p", false⟩,
        ⟨[RefreshNet.transportError], [LoginNet.badStatus 500 "boom"], [], []⟩⟩ =
      (false, ⟨clearRefreshState ⟨"tok", "rt", some 5, "e", "p", false⟩,
        { (⟨[RefreshNet.transportError], [LoginNet.badStatus 500 "boom"], [], []⟩ : Net)
            with refreshResults := [] }⟩, [Ev.fetchRefresh]) ∧
    ∃ evs, (ensureAuthenticated 1000000 ⟨⟨"tok", "rt", some 5, "e", "p", false⟩,
        ⟨[RefreshNet.transportError], [LoginNet.badStatus 500 "boom"], [], []⟩⟩).2.2 =
      Ev.fetchRefresh :: Ev.fetchLogin :: evs :=
  c5_refresh_transport_degrades 1000000 ⟨⟨"tok", "rt", some 5, "e", "p", false⟩,
    ⟨[RefreshNet.transportError], [LoginNet.badStatus 500 "boom"], [], []⟩⟩ []
    (by decide) (by decide) rfl (by decide) (by decide)

/-- C7: with the persistence callback configured, every successful
`login` produces exactly the login dispatch followed by one callback
invocation whose three arguments are, in order, the new access token,
the new refresh token and the new expiry instant now held in the state
(so the callback runs after the state mutation and is the last step
before control returns); likewise every `refreshAccessToken` that
returns `true`.  Success itself certifies the await: a rejecting
callback would have made the run fail instead. -/
theorem c7_callback_before_return (now : Int) (s : St)
    (hcb : s.cred.hasCallback = true) :
    (∀ e p data s' tr, login now e p s = (.ok data, s', tr) →
      tr = [Ev.fetchLogin, Ev.callback s'.cred.bearerToken s'.cred.refreshToken
              (now + data.expires_in * 1000)] ∧
      s'.cred.tokenExpiresAt = some (now + data.expires_in * 1000)) ∧
    (∀ s' tr, refreshAccessToken now s = (true, s', tr) →
      ∃ exp, tr = [Ev.fetchRefresh,
          Ev.callback s'.cred.bearerToken s'.cred.refreshToken exp] ∧
        s'.cred.tokenExpiresAt = some exp) := by
  constructor
  · intro e p data s' tr h
    obtain ⟨rest, _, hbt, hrt2, hexp, _, _, htr⟩ := login_ok now e p s data s' tr h
    rw [hbt, hrt2]
    exact ⟨htr hcb, hexp⟩
  · intro s' tr h
    obtain ⟨data, rest, _, hbt, hrt2, hexp, _, _, _, htr⟩ := refresh_true now s s' tr h
    refine ⟨now + data.expires_in * 1000, ?_, hexp⟩
    rw [hbt, hrt2]
    exact htr hcb

/-- C1 counterexample.  `ensureAuthenticated` can return without
throwing while the state is not usable: a successful refresh whose
payload carries `expires_in = 0` stores `expiresAt = now`, which is not
more than 60 seconds in the future (the next `isUsable` is false).  The
same happens for any `expires_in ≤ 60`. -/
theorem c1_counterexample : ¬ c1Stated := by
  intro h
  have h2 := h 1000000
    ⟨⟨"", "rt", none, "e", "p", false⟩,
     ⟨[RefreshNet.success ⟨"a", "r2", "bearer", 0⟩], [], [], []⟩⟩
    ⟨⟨"a", "r2", some 1000000, "e", "p", false⟩, ⟨[], [], [], []⟩⟩
    [Ev.fetchRefresh] (by decide) rfl
  rcases h2 with ⟨-, t, ht, hlt⟩
  rw [Option.some_inj] at ht
  omega

/-- C1 (amended): whenever every successful exchange the oracle can
return carries a non-empty access token and `expires_in ≥ 60`, every
execution of `ensureAuthenticated` that returns without throwing leaves
a usable state: non-empty access token, `expiresAt` present (and
nonzero), and the current time at least 60 seconds before it
(`now ≤ expiresAt - 60000`, boundary included) — on the hot path, after
a successful refresh, and after a successful login alike. -/
theorem c1_ensure_usable (now : Int) (s s' : St) (tr : List Ev) (h0 : 0 ≤ now)
    (hg : Net.goodB s.net = true)
    (h : ensureAuthenticated now s = (.ok (), s', tr)) :
    s'.cred.bearerToken ≠ "" ∧
    ∃ t, s'.cred.tokenExpiresAt = some t ∧ t ≠ 0 ∧ now ≤ t - 60000 := by
  by_cases hu : isUsable s.cred now = true
  · simp only [ensureAuthenticated, hu, if_true, Prod.mk.injEq] at h
    obtain ⟨-, hs, -⟩ := h
    subst hs
    exact isUsable_spec s.cred now hu
  · rcases href : refreshAccessToken now s with ⟨b, s1, tr1⟩
    cases b with
    | true =>
      unfold ensureAuthenticated at h
      rw [if_neg hu, href] at h
      simp only [Prod.mk.injEq] at h
      obtain ⟨-, hs, -⟩ := h
      subst hs
      obtain ⟨data, rest, hlist, hbt, -, hexp, -⟩ := refresh_true now s s1 tr1 href
      obtain ⟨hat, he⟩ := goodData_spec data (goodB_refresh_head s.net data rest hg hlist)
      refine ⟨by rw [hbt]; exact hat, now + data.expires_in * 1000, hexp, ?_, ?_⟩ <;> omega
    | false =>
      by_cases hep : s1.cred.email = "" ∨ s1.cred.password = ""
      · simp [ensureAuthenticated, hu, href, hep] at h
      · rcases hlog : login now s1.cred.email s1.cred.password s1 with ⟨res, s2, tr2⟩
        cases res with
        | error e => simp [ensureAuthenticated, hu, href, hep, hlog] at h
        | ok d =>
          unfold ensureAuthenticated at h
          rw [if_neg hu, href] at h
          simp only [Prod.mk.injEq] at h
          rw [if_neg hep, hlog] at h
          simp only [Prod.mk.injEq] at h
          obtain ⟨-, hs, -⟩ := h
          subst hs
          obtain ⟨rest2, hlist2, hbt, -, hexp, -⟩ := login_ok now s1.cred.email
            s1.cred.password s1 d s2 tr2 hlog
          have hpres := refresh_frame now s
          rw [href] at hpres
          rw [hpres.2.2.2.2] at hlist2
          obtain ⟨hat, he⟩ := goodData_spec d (goodB_login_head s.net d rest2 hg hlist2)
          refine ⟨by rw [hbt]; exact hat, now + d.expires_in * 1000, hexp, ?_, ?_⟩ <;> omega

/-- C1 witness: an expired state refreshed with a one-hour token is
usable after `ensureAuthenticated` returns. -/
theorem c1_ensure_usable_witness :
    (⟨⟨"a", "r2", some 3600000, "e", "p", false⟩, ⟨[], [], [], []⟩⟩ : St).cred.bearerToken ≠ "" ∧
    ∃ t, (⟨⟨"a", "r2", some 3600000, "e", "p", false⟩,
        ⟨[], [], [], []⟩⟩ : St).cred.tokenExpiresAt = some t ∧ t ≠ 0 ∧ (0:Int) ≤ t - 60000 :=
  c1_ensure_usable 0
    ⟨⟨"", "rt", none, "e", "p", false⟩,
     ⟨[RefreshNet.success ⟨"a", "r2", "bearer", 3600⟩], [], [], []⟩⟩
    ⟨⟨"a", "r2", some 3600000, "e", "p", false⟩, ⟨[], [], [], []⟩⟩
    [Ev.fetchRefresh] (by decide) (by decide) rfl

theorem dispatch_count (s : St) (t : TargetOutcome) (s2 : St) (tr : List Ev)
    (h : dispatchTarget s = (t, s2, tr)) : countTarget tr = 1 := by
  have hh : countTarget (dispatchTarget s).2.2 = 1 := by
    simp [dispatchTarget, countTarget]
  rw [h] at hh
  exact hh

theorem dispatch_cred (s : St) (t : TargetOutcome) (s2 : St) (tr : List Ev)
    (h : dispatchTarget s = (t, s2, tr)) : s2.cred = s.cred := by
  have hh : (dispatchTarget s).2.1.cred = s.cred := rfl
  rw [h] at hh
  exact hh

theorem authFetch_count (now : Int) (s : St) :
    countTarget (authenticatedFetch now s).2.2 ≤ 2 := by
  rcases hens : ensureAuthenticated now s with ⟨res, s1, tr1⟩
  have htr1 : countTarget tr1 = 0 := by
    have hh := ensure_countTarget now s
    rw [hens] at hh
    exact hh
  cases res with
  | error e =>
    simp only [authenticatedFetch, hens]
    omega
  | ok u =>
    rcases hd1 : dispatchTarget s1 with ⟨t, s2, tr2⟩
    have htr2 := dispatch_count s1 t s2 tr2 hd1
    cases t with
    | throws =>
      simp only [authenticatedFetch, hens, hd1, countTarget_append]
      omega
    | resp r =>
      by_cases h401 : r.status = 401
      · rcases href : refreshAccessToken now ⟨{ s2.cred with bearerToken := "" }, s2.net⟩
          with ⟨b, s4, tr3⟩
        have htr3 : countTarget tr3 = 0 := by
          have hh := refresh_countTarget now ⟨{ s2.cred with bearerToken := "" }, s2.net⟩
          rw [href] at hh
          exact hh
        cases b with
        | true =>
          rcases hd2 : dispatchTarget s4 with ⟨t2, s5, tr4⟩
          have htr4 := dispatch_count s4 t2 s5 tr4 hd2
          cases t2 with
          | throws =>
            simp [authenticatedFetch, hens, hd1, h401, href, hd2, countTarget_append]
            omega
          | resp r2 =>
            simp [authenticatedFetch, hens, hd1, h401, href, hd2, countTarget_append]
            omega
        | false =>
          rcases hens2 : ensureAuthenticated now s4 with ⟨res2, s5, tr4⟩
          have htr4 : countTarget tr4 = 0 := by
            have hh := ensure_countTarget now s4
            rw [hens2] at hh
            exact hh
          cases res2 with
          | error e =>
            simp [authenticatedFetch, hens, hd1, h401, href, hens2, countTarget_append]
            omega
          | ok u2 =>
            rcases hd2 : dispatchTarget s5 with ⟨t2, s6, tr5⟩
            have htr5 := dispatch_count s5 t2 s6 tr5 hd2
            cases t2 with
            | throws =>
              simp [authenticatedFetch, hens, hd1, h401, href, hens2, hd2, countTarget_append]
              omega
            | resp r2 =>
              simp [authenticatedFetch, hens, hd1, h401, href, hens2, hd2, countTarget_append]
              omega
      · simp only [authenticatedFetch, hens, hd1, if_neg h401, countTarget_append]
        omega

theorem authFetch_second (now : Int) (s : St) (r1 r2 : Response)
    (rest : List TargetOutcome) (x : Response)
    (htargets : s.net.targetResults = TargetOutcome.resp r1 :: TargetOutcome.resp r2 :: rest)
    (h401 : r1.status = 401)
    (hok : (authenticatedFetch now s).1 = Except.ok x) : x = r2 := by
  rcases hens : ensureAuthenticated now s with ⟨res, s1, tr1⟩
  have hpres : s1.net.targetResults = s.net.targetResults := by
    have hh := (ensure_frame now s).2.2.2
    rw [hens] at hh
    exact hh
  cases res with
  | error e => simp [authenticatedFetch, hens] at hok
  | ok u =>
    have hl1 : s1.net.targetResults =
        TargetOutcome.resp r1 :: TargetOutcome.resp r2 :: rest := hpres.trans htargets
    have hd1 : dispatchTarget s1 = (TargetOutcome.resp r1,
        ⟨s1.cred, { s1.net with targetResults := TargetOutcome.resp r2 :: rest }⟩,
        [Ev.fetchTarget (authHeader s1.cred)]) := by
      simp [dispatchTarget, popTarget, hl1]
    rcases href : refreshAccessToken now
        ⟨{ s1.cred with bearerToken := "" },
         { s1.net with targetResults := TargetOutcome.resp r2 :: rest }⟩ with ⟨b, s4, tr3⟩
    have hp4 : s4.net.targetResults = TargetOutcome.resp r2 :: rest := by
      have hh := (refresh_frame now
        ⟨{ s1.cred with bearerToken := "" },
         { s1.net with targetResults := TargetOutcome.resp r2 :: rest }⟩).2.2.2.1
      rw [href] at hh
      exact hh
    cases b with
    | true =>
      have hd2 : dispatchTarget s4 = (TargetOutcome.resp r2,
          ⟨s4.cred, { s4.net with targetResults := rest }⟩,
          [Ev.fetchTarget (authHeader s4.cred)]) := by
        simp [dispatchTarget, popTarget, hp4]
      simp [authenticatedFetch, hens, hd1, h401, href, hd2] at hok
      exact hok.symm
    | false =>
      rcases hens2 : ensureAuthenticated now s4 with ⟨res2, s5, tr4⟩
      cases res2 with
      | error e =>
        simp [authenticatedFetch, hens, hd1, h401, href, hens2] at hok
      | ok u2 =>
        have hp5 : s5.net.targetResults = TargetOutcome.resp r2 :: rest := by
          have hh := (ensure_frame now s4).2.2.2
          rw [hens2] at hh
          exact hh.trans hp4
        have hd2 : dispatchTarget s5 = (TargetOutcome.resp r2,
            ⟨s5.cred, { s5.net with targetResults := rest }⟩,
            [Ev.fetchTarget (authHeader s5.cred)]) := by
          simp [dispatchTarget, popTarget, hp5]
        simp [authenticatedFetch, hens, hd1, h401, href, hens2, hd2] at hok
        exact hok.symm

theorem authFetch_frame (now : Int) (s : St) :
    (authenticatedFetch now s).2.1.cred.email = s.cred.email ∧
    (authenticatedFetch now s).2.1.cred.password = s.cred.password := by
  rcases hens : ensureAuthenticated now s with ⟨res, s1, tr1⟩
  have hf1 := ensure_frame now s
  rw [hens] at hf1
  cases res with
  | error e =>
    simp only [authenticatedFetch, hens]
    exact ⟨hf1.1, hf1.2.1⟩
  | ok u =>
    rcases hd1 : dispatchTarget s1 with ⟨t, s2, tr2⟩
    have hc2 : s2.cred = s1.cred := dispatch_cred s1 t s2 tr2 hd1
    cases t with
    | throws =>
      simp only [authenticatedFetch, hens, hd1]
      rw [hc2]
      exact ⟨hf1.1, hf1.2.1⟩
    | resp r =>
      by_cases h401 : r.status = 401
      · rcases href : refreshAccessToken now ⟨{ s2.cred with bearerToken := "" }, s2.net⟩
          with ⟨b, s4, tr3⟩
        have hf3 := refresh_frame now ⟨{ s2.cred with bearerToken := "" }, s2.net⟩
        rw [href] at hf3
        have h4e : s4.cred.email = s2.cred.email := hf3.1
        have h4p : s4.cred.password = s2.cred.password := hf3.2.1
        cases b with
        | true =>
          rcases hd2 : dispatchTarget s4 with ⟨t2, s5, tr4⟩
          have hc5 : s5.cred = s4.cred := dispatch_cred s4 t2 s5 tr4 hd2
          have hgoal : s5.cred.email = s.cred.email ∧ s5.cred.password = s.cred.password := by
            rw [hc5, h4e, h4p, hc2]
            exact ⟨hf1.1, hf1.2.1⟩
          cases t2 with
          | throws =>
            simp [authenticatedFetch, hens, hd1, h401, href, hd2]
            exact hgoal
          | resp r2 =>
            simp [authenticatedFetch, hens, hd1, h401, href, hd2]
            exact hgoal
        | false =>
          rcases hens2 : ensureAuthenticated now s4 with ⟨res2, s5, tr4⟩
          have hf5 := ensure_frame now s4
          rw [hens2] at hf5
          have h5e : s5.cred.email = s.cred.email := by
            rw [hf5.1, h4e, hc2]
            exact hf1.1
          have h5p : s5.cred.password = s.cred.password := by
            rw [hf5.2.1, h4p, hc2]
            exact hf1.2.1
          cases res2 with
          | error e =>
            simp [authenticatedFetch, hens, hd1, h401, href, hens2]
            exact ⟨h5e, h5p⟩
          | ok u2 =>
            rcases hd2 : dispatchTarget s5 with ⟨t2, s6, tr5⟩
            have hc6 : s6.cred = s5.cred := dispatch_cred s5 t2 s6 tr5 hd2
            cases t2 with
            | throws =>
              simp [authenticatedFetch, hens, hd1, h401, href, hens2, hd2]
              rw [hc6]
              exact ⟨h5e, h5p⟩
            | resp r2 =>
              simp [authenticatedFetch, hens, hd1, h401, href, hens2, hd2]
              rw [hc6]
              exact ⟨h5e, h5p⟩
      · simp only [authenticatedFetch, hens, hd1, if_neg h401]
        rw [hc2]
        exact ⟨hf1.1, hf1.2.1⟩

/-- C2: every `authenticatedFetch` call dispatches the target endpoint
at most twice — the original call and at most one retry after a 401 —
and when the server answers the original dispatch with a 401 and the
retry with any second response (in particular another 401), that second
response is what the caller receives, with no further dispatch (the
count bound covers the retry itself). -/
theorem c2_at_most_two_dispatches (now : Int) (s : St) :
    countTarget (authenticatedFetch now s).2.2 ≤ 2 ∧
    (∀ r1 r2 rest x,
      s.net.targetResults = TargetOutcome.resp r1 :: TargetOutcome.resp r2 :: rest →
      r1.status = 401 → (authenticatedFetch now s).1 = Except.ok x → x = r2) :=
  ⟨authFetch_count now s,
   fun r1 r2 rest x ht h401 hok => authFetch_second now s r1 r2 rest x ht h401 hok⟩

/-- C2 witness: a usable token answered by a 401 then a 200 yields two
dispatches and returns the second (200) response as-is. -/
theorem c2_at_most_two_dispatches_witness :
    countTarget (authenticatedFetch 0 ⟨⟨"tok", "rt", some 1000000, "e", "p", false⟩,
      ⟨[RefreshNet.success ⟨"new", "r2", "bearer", 3600⟩], [],
       [TargetOutcome.resp ⟨401, "a"⟩, TargetOutcome.resp ⟨200, "b"⟩], []⟩⟩).2.2 ≤ 2 ∧
    (⟨200, "b"⟩ : Response) = ⟨200, "b"⟩ :=
  ⟨(c2_at_most_two_dispatches 0 ⟨⟨"tok", "rt", some 1000000, "e", "p", false⟩,
      ⟨[RefreshNet.success ⟨"new", "r2", "bearer", 3600⟩], [],
       [TargetOutcome.resp ⟨401, "a"⟩, TargetOutcome.resp ⟨200, "b"⟩], []⟩⟩).1,
   (c2_at_most_two_dispatches 0 ⟨⟨"tok", "rt", some 1000000, "e", "p", false⟩,
      ⟨[RefreshNet.success ⟨"new", "r2", "bearer", 3600⟩], [],
       [TargetOutcome.resp ⟨401, "a"⟩, TargetOutcome.resp ⟨200, "b"⟩], []⟩⟩).2
     ⟨401, "a"⟩ ⟨200, "b"⟩ [] ⟨200, "b"⟩ rfl rfl (by rfl)⟩

/-- C8: the clearing operations never touch the fallback credentials —
`refreshAccessToken` (which clears refresh state on every failure) and
`authenticatedFetch` (which clears the access token on a 401) both
leave `email` and `password` exactly as they were, on every path. -/
theorem c8_clears_preserve_credentials (now : Int) (s : St) :
    ((refreshAccessToken now s).2.1.cred.email = s.cred.email ∧
     (refreshAccessToken now s).2.1.cred.password = s.cred.password) ∧
    ((authenticatedFetch now s).2.1.cred.email = s.cred.email ∧
     (authenticatedFetch now s).2.1.cred.password = s.cred.password) := by
  have hr := refresh_frame now s
  exact ⟨⟨hr.1, hr.2.1⟩, authFetch_frame now s⟩

/-- C7 witness: a successful login with the callback configured emits
the login dispatch followed by the callback carrying the new token
triple, which matches the final state. -/
theorem c7_callback_before_return_witness :
    [Ev.fetchLogin, Ev.callback "a" "r" 100000] =
      [Ev.fetchLogin, Ev.callback
        (⟨⟨"a", "r", some 100000, "e", "p", true⟩, ⟨[], [], [], []⟩⟩ : St).cred.bearerToken
        (⟨⟨"a", "r", some 100000, "e", "p", true⟩, ⟨[], [], [], []⟩⟩ : St).cred.refreshToken
        ((0:Int) + 100 * 1000)] ∧
    (⟨⟨"a", "r", some 100000, "e", "p", true⟩, ⟨[], [], [], []⟩⟩ : St).cred.tokenExpiresAt =
      some ((0:Int) + 100 * 1000) :=
  (c7_callback_before_return 0 ⟨⟨"", "", none, "e", "p", true⟩,
      ⟨[], [LoginNet.success ⟨"a", "r", "bearer", 100⟩], [], [true]⟩⟩ rfl).1
    "e" "p" ⟨"a", "r", "bearer", 100⟩
    ⟨⟨"a", "r", some 100000, "e", "p", true⟩, ⟨[], [], [], []⟩⟩
    [Ev.fetchLogin, Ev.callback "a" "r" 100000] (by rfl)
